import Mathlib

/-!
Shallow embedding of the Custom-API-Management repository (Flask/Python) and
verification of its specification claims.

Times are modelled as natural numbers (seconds since an arbitrary epoch);
`datetime.utcnow()` becomes an explicit `now : Nat` parameter.  The SHA-256
digest used for API keys is modelled as an abstract function
`h : String → String` passed to every operation that hashes; bcrypt password
checking is likewise an abstract `checkpw : String → String → Bool`.
Random draws (`secrets.choice`, `random.randint`) become explicit parameters
ranging over the sampling domain of the source call.
-/

namespace ApiManager

/-- Mirrors the `ApiKey` model of `src/models/__init__.py`:
id, user_id, key_hash, key_preview, name, status, created_at, expires_at,
last_used, usage_count. -/
structure ApiKey where
  id : Nat
  user_id : Nat
  key_hash : String
  key_preview : String
  name : Option String
  status : String
  created_at : Nat
  expires_at : Option Nat
  last_used : Option Nat
  usage_count : Nat
  deriving Repr, DecidableEq

/-- `ApiKey.is_valid` (src/models/__init__.py lines 92-100):
returns False when status is not active; returns False when an expiry is set
and `utcnow() > expires_at`; otherwise True.  A present `datetime` is always
truthy in Python, so the guard `if self.expires_at and ...` reads as
"expiry present and now strictly greater than it". -/
def ApiKey.is_valid (k : ApiKey) (now : Nat) : Bool :=
  if k.status ≠ "active" then false
  else match k.expires_at with
    | some e => if now > e then false else true
    | none => true

/-- The spec's wording of validity for claim C1 (spec.md section 3):
"`is_valid` ⇔ status = active ∧ (no expiry OR expiry > now)" — with expiry
STRICTLY later than the current time.  Used only to compare against the
source-derived `ApiKey.is_valid`. -/
def specValidC1 (k : ApiKey) (now : Nat) : Bool :=
  k.status == "active" &&
    (match k.expires_at with | none => true | some e => decide (now < e))

/-- Claim C1, counterexample: a key with status active and `expires_at`
exactly equal to the current time is reported valid by the code
(`utcnow() > expires_at` is false at equality), while the claim's strict
"expires_at strictly later than now" would make it invalid. -/
theorem C1_counterexample :
    ApiKey.is_valid ⟨1, 1, "h", "p", none, "active", 0, some 100, none, 0⟩ 100 = true ∧
    specValidC1 ⟨1, 1, "h", "p", none, "active", 0, some 100, none, 0⟩ 100 = false := by
  constructor <;> rfl

/-- Claim C1 (amended): `is_valid` returns true iff the status is active and
the expiry, when present, is not earlier than the current time (`now ≤ e`,
i.e. non-strict); in particular an active key whose expiry lies strictly in
the past is invalid, and an active key without expiry is valid at every
time. -/
theorem C1_is_valid_characterization (k : ApiKey) (now : Nat) :
    (ApiKey.is_valid k now = true ↔
      (k.status = "active" ∧ ∀ e ∈ k.expires_at, now ≤ e)) ∧
    (k.status = "active" → ∀ e ∈ k.expires_at, e < now →
      ApiKey.is_valid k now = false) ∧
    (k.status = "active" → k.expires_at = none → ApiKey.is_valid k now = true) := by
  refine ⟨?_, ?_, ?_⟩
  · unfold ApiKey.is_valid
    cases hx : k.expires_at with
    | none =>
        by_cases hs : k.status = "active" <;>
          simp [hs, Option.mem_def]
    | some e =>
        by_cases hs : k.status = "active"
        · by_cases he : now > e
          · simp [hs, he]
          · simp [hs, he]
            omega
        · simp [hs]
  · intro hs e he hlt
    rw [Option.mem_def] at he
    unfold ApiKey.is_valid
    simp [hs, he, hlt]
  · intro hs hx
    unfold ApiKey.is_valid
    simp [hs, hx]

/-- Claim C1 witness: concrete evaluations of the amended characterization. -/
theorem C1_witness :
    ApiKey.is_valid ⟨1, 1, "h", "p", none, "active", 0, some 3, none, 0⟩ 7 = false ∧
    ApiKey.is_valid ⟨1, 1, "h", "p", none, "active", 0, none, none, 0⟩ 7 = true := by
  refine ⟨?_, ?_⟩
  · exact (C1_is_valid_characterization ⟨1, 1, "h", "p", none, "active", 0, some 3, none, 0⟩ 7).2.1
      rfl 3 rfl (by decide)
  · exact (C1_is_valid_characterization ⟨1, 1, "h", "p", none, "active", 0, none, none, 0⟩ 7).2.2
      rfl rfl

/-- Python's `str()` applied to a non-negative integer: the base-10
representation, most significant digit first, with no leading zeros
(and "0" for zero).  `Nat.digits 10 n` is the little-endian digit list. -/
def pyStrNat (n : Nat) : String :=
  if n = 0 then "0"
  else String.mk (((Nat.digits 10 n).reverse).map Nat.digitChar)

/-- `generate_otp` (src/utils/helpers.py lines 16-18):
`str(random.randint(100000, 999999))`.  The random draw is the explicit
parameter `r`; `randint(100000, 999999)` confines it to
`100000 ≤ r ≤ 999999` (both endpoints inclusive). -/
def generate_otp (r : Nat) : String :=
  pyStrNat r

/-- A string is a possible output of `generate_otp`: some draw inside
`randint`'s sampling range produces it. -/
def otpPossible (s : String) : Prop :=
  ∃ r, 100000 ≤ r ∧ r ≤ 999999 ∧ generate_otp r = s

/-- Helper: for a draw in randint's range, the decimal string is the digit
list of `r` reversed, mapped through `Nat.digitChar`. -/
theorem generate_otp_data (r : Nat) (h1 : 100000 ≤ r) :
    (generate_otp r).data = ((Nat.digits 10 r).reverse).map Nat.digitChar := by
  have hr : r ≠ 0 := by omega
  simp [generate_otp, pyStrNat, hr]

/-- Helper: the first character of the generated string is the character of
the most significant decimal digit of `r`. -/
theorem generate_otp_head (r : Nat) (h1 : 100000 ≤ r) :
    (generate_otp r).data.head? = ((Nat.digits 10 r).getLast?).map Nat.digitChar := by
  rw [generate_otp_data r h1, List.head?_map, List.head?_reverse]

/-- Claim C8, counterexample: "000000" is not a possible output of
`generate_otp`.  The code draws from 100000-999999 and `str()` never
produces leading zeros, so the zero-padded low values the claim promises
(000000-099999) can never appear. -/
theorem C8_counterexample : ¬ otpPossible "000000" := by
  rintro ⟨r, h1, h2, hs⟩
  have hr : r ≠ 0 := by omega
  have hnil : Nat.digits 10 r ≠ [] := Nat.digits_ne_nil_iff_ne_zero.mpr hr
  have hlast : (Nat.digits 10 r).getLast hnil ≠ 0 := Nat.getLast_digit_ne_zero 10 hr
  have hlt : (Nat.digits 10 r).getLast hnil < 10 :=
    Nat.digits_lt_base (by norm_num) (List.getLast_mem hnil)
  have hhead : (generate_otp r).data.head? =
      some (Nat.digitChar ((Nat.digits 10 r).getLast hnil)) := by
    rw [generate_otp_head r h1, List.getLast?_eq_getLast _ hnil]
    rfl
  rw [hs] at hhead
  have hzero : Nat.digitChar ((Nat.digits 10 r).getLast hnil) = '0' := by
    have : ("000000" : String).data.head? = some '0' := by decide
    rw [this] at hhead
    exact (Option.some.injEq _ _ ▸ hhead.symm)
  have : ∀ d : Nat, d < 10 → Nat.digitChar d = '0' → d = 0 := by decide
  exact hlast (this _ hlt hzero)

/-- Claim C8 (amended): every call returns the plain decimal string of a
value drawn uniformly from 100000-999999: a string of exactly 6 characters,
all decimal digits, whose first character is never '0'.  Zero-padding never
occurs, so the claim's low range 000000-099999 is unreachable. -/
theorem C8_generate_otp_shape (r : Nat) (h1 : 100000 ≤ r) (h2 : r ≤ 999999) :
    (generate_otp r).length = 6 ∧
    (∀ c ∈ (generate_otp r).data, c.isDigit = true) ∧
    (generate_otp r).data.head? ≠ some '0' := by
  have hr : r ≠ 0 := by omega
  have hlen : (Nat.digits 10 r).length = 6 := by
    rw [Nat.digits_len 10 r (by norm_num) hr]
    have hlog : Nat.log 10 r = 5 := by
      apply Nat.log_eq_of_pow_le_of_lt_pow
      · norm_num; omega
      · norm_num; omega
    omega
  refine ⟨?_, ?_, ?_⟩
  · have : (generate_otp r).length = (generate_otp r).data.length := rfl
    rw [this, generate_otp_data r h1]
    simp [hlen]
  · intro c hc
    rw [generate_otp_data r h1] at hc
    rcases List.mem_map.mp hc with ⟨d, hd, rfl⟩
    have hd10 : d < 10 := Nat.digits_lt_base (by norm_num) (List.mem_reverse.mp hd)
    have : ∀ d : Nat, d < 10 → (Nat.digitChar d).isDigit = true := by decide
    exact this d hd10
  · have hnil : Nat.digits 10 r ≠ [] := Nat.digits_ne_nil_iff_ne_zero.mpr hr
    have hlast : (Nat.digits 10 r).getLast hnil ≠ 0 := Nat.getLast_digit_ne_zero 10 hr
    have hlt : (Nat.digits 10 r).getLast hnil < 10 :=
      Nat.digits_lt_base (by norm_num) (List.getLast_mem hnil)
    rw [generate_otp_head r h1, List.getLast?_eq_getLast _ hnil]
    intro hcontra
    have hzero : Nat.digitChar ((Nat.digits 10 r).getLast hnil) = '0' :=
      Option.some.injEq _ _ ▸ (by simpa using hcontra)
    have : ∀ d : Nat, d < 10 → Nat.digitChar d = '0' → d = 0 := by decide
    exact hlast (this _ hlt hzero)

/-- Claim C8 witness: the amended shape theorem applied at the concrete
draw 123456. -/
theorem C8_witness :
    100000 ≤ 123456 ∧ 123456 ≤ 999999 ∧
    ((generate_otp 123456).length = 6 ∧
     (∀ c ∈ (generate_otp 123456).data, c.isDigit = true) ∧
     (generate_otp 123456).data.head? ≠ some '0') :=
  ⟨by decide, by decide, C8_generate_otp_shape 123456 (by decide) (by decide)⟩

/-- Mirrors the `ApiUsage` model of `src/models/__init__.py`:
id, key_id, endpoint, timestamp, status, ip_address, user_agent. -/
structure ApiUsage where
  id : Nat
  key_id : Nat
  endpoint : String
  timestamp : Nat
  status : String
  ip_address : Option String
  user_agent : Option String
  deriving Repr, DecidableEq

/-- The slice of the database the validation middleware touches: the api_keys
table, the api_usage table, and the next autoincrement id for api_usage. -/
structure Store where
  keys : List ApiKey
  usages : List ApiUsage
  nextId : Nat
  deriving Repr, DecidableEq

/-- `ApiKey.query.filter_by(key_hash=...).first()`. -/
def findKeyByHash (keys : List ApiKey) (hsh : String) : Option ApiKey :=
  keys.find? (fun k => k.key_hash == hsh)

/-- SQLAlchemy object mutation: the row with the mutated key's id takes the
new field values. -/
def replaceKey (keys : List ApiKey) (k : ApiKey) : List ApiKey :=
  keys.map (fun x => if x.id == k.id then k else x)

/-- `ApiUsage.query.filter_by(key_id=...).order_by(ApiUsage.id.desc()).first()`:
the usage row for the key with the greatest id, if any. -/
def latestUsageFor (usages : List ApiUsage) (kid : Nat) : Option ApiUsage :=
  (usages.filter (fun u => u.key_id == kid)).foldl
    (fun acc u =>
      match acc with
      | none => some u
      | some a => if a.id < u.id then some u else some a) none

/-- Mutating `usage_log.ip_address` / `usage_log.user_agent` on the row with
the given id. -/
def setIpUa (usages : List ApiUsage) (uid : Nat) (ip : String) (ua : Option String) :
    List ApiUsage :=
  usages.map (fun u =>
    if u.id == uid then { u with ip_address := some ip, user_agent := ua } else u)

/-- Outcome of the `require_api_key` decorator: either a 401 JSON error body
`{error, message}`, or the wrapped handler runs with the resolved key bound
to the request context (`g.current_api_key`). -/
inductive MwResult where
  | denied (code : Nat) (error : String) (message : String)
  | allowed (boundKey : ApiKey)
  deriving Repr, DecidableEq

/-- `require_api_key` (src/utils/decorators.py lines 8-73).  Parameters:
`h` the SHA-256 digest, `header` the X-API-Key header (`none` = absent),
`ip`/`ua` the client address and User-Agent header, `endpoint` the request
endpoint, `now` the clock, `s` the store.  Mirrors the source control flow:
missing header → 401; unknown hash → 401; found-but-invalid key → append one
invalid_key usage row and 401 with message "API key is <status>"; valid key
→ `record_usage` (increment counter, set last_used, append a success row
without ip/ua), then fetch the newest usage row of the key and fill in
ip/ua, then proceed with the key bound. -/
def require_api_key (h : String → String) (header : Option String) (ip : String)
    (ua : Option String) (endpoint : String) (now : Nat) (s : Store) :
    MwResult × Store :=
  match header with
  | none =>
      (.denied 401 "API key required" "Please provide API key in X-API-Key header", s)
  | some raw =>
      if raw = "" then
        (.denied 401 "API key required" "Please provide API key in X-API-Key header", s)
      else
        match findKeyByHash s.keys (h raw) with
        | none =>
            (.denied 401 "Invalid API key" "The provided API key is not valid", s)
        | some k =>
            if ApiKey.is_valid k now then
              let k' := { k with last_used := some now, usage_count := k.usage_count + 1 }
              let log : ApiUsage :=
                ⟨s.nextId, k.id, endpoint, now, "success", none, none⟩
              let usages1 := s.usages ++ [log]
              let usages2 :=
                match latestUsageFor usages1 k.id with
                | none => usages1
                | some u => setIpUa usages1 u.id ip ua
              (.allowed k',
               { keys := replaceKey s.keys k', usages := usages2, nextId := s.nextId + 1 })
            else
              let log : ApiUsage :=
                ⟨s.nextId, k.id, endpoint, now, "invalid_key", some ip, ua⟩
              (.denied 401 "Invalid API key" ("API key is " ++ k.status),
               { keys := s.keys, usages := s.usages ++ [log], nextId := s.nextId + 1 })

/-- Helper: the max-by-id fold returns the appended row when every earlier
accumulator and list element has a smaller id. -/
theorem foldl_max_append (row : ApiUsage) :
    ∀ (l : List ApiUsage) (acc : Option ApiUsage),
      (∀ u ∈ l, u.id < row.id) →
      (∀ a, acc = some a → a.id < row.id) →
      (l ++ [row]).foldl
        (fun acc u =>
          match acc with
          | none => some u
          | some a => if a.id < u.id then some u else some a) acc = some row := by
  intro l
  induction l with
  | nil =>
      intro acc _ hacc
      cases acc with
      | none => rfl
      | some a =>
          have := hacc a rfl
          simp [List.foldl, this]
  | cons u l ih =>
      intro acc hl hacc
      have hu : u.id < row.id := hl u (List.mem_cons_self u l)
      rw [List.cons_append, List.foldl_cons]
      apply ih
      · intro v hv; exact hl v (List.mem_cons_of_mem u hv)
      · intro a ha
        cases acc with
        | none =>
            have hau : a = u := by simpa using ha.symm
            subst hau; exact hu
        | some b =>
            have hb := hacc b rfl
            by_cases hcmp : b.id < u.id
            · have hau : a = u := by simpa [hcmp] using ha.symm
              subst hau; exact hu
            · have hab : a = b := by simpa [hcmp] using ha.symm
              subst hab; exact hb

/-- Helper: appending a fresh usage row with a strictly larger id makes it the
latest row for its key. -/
theorem latestUsageFor_append (us : List ApiUsage) (row : ApiUsage)
    (hfresh : ∀ u ∈ us, u.id < row.id) :
    latestUsageFor (us ++ [row]) row.key_id = some row := by
  unfold latestUsageFor
  rw [List.filter_append]
  have hrow : (List.filter (fun u => u.key_id == row.key_id) [row]) = [row] := by
    simp
  rw [hrow]
  apply foldl_max_append
  · intro u hu
    exact hfresh u (List.mem_of_mem_filter hu)
  · intro a ha; cases ha

/-- Helper: filling ip/ua on the fresh row only touches the fresh row. -/
theorem setIpUa_append (us : List ApiUsage) (row : ApiUsage) (ip : String)
    (ua : Option String) (hfresh : ∀ u ∈ us, u.id < row.id) :
    setIpUa (us ++ [row]) row.id ip ua =
      us ++ [{ row with ip_address := some ip, user_agent := ua }] := by
  unfold setIpUa
  rw [List.map_append]
  congr 1
  · apply List.map_congr_left ?_ |>.trans (List.map_id us)
    intro u hu
    have : u.id ≠ row.id := Nat.ne_of_lt (hfresh u hu)
    simp [this]
  · simp

/-- Claim C2: behaviour of the API-key validation middleware in its four
cases.  (a) Absent header: 401, store untouched, so no ApiUsage row.
(b) Hash matches no key: 401, store untouched.  (c) Key found but
`is_valid()` false: exactly one new ApiUsage row with status invalid_key
referencing the key, 401 whose message is "API key is <status>" — a function
of the stored status alone, revealing nothing about which concrete reason
(status vs expiry) applies beyond the status value.  (d) Key found and
valid: the handler runs with a bound key whose usage_count rose by exactly 1
and last_used = now, that key is stored, and exactly one new ApiUsage row
with status success carrying the client ip and user-agent is appended.
Hypothesis: existing usage ids are below the autoincrement cursor. -/
theorem C2_require_api_key (h : String → String) (header : Option String)
    (ip : String) (ua : Option String) (endpoint : String) (now : Nat) (s : Store)
    (hfresh : ∀ u ∈ s.usages, u.id < s.nextId) :
    (header = none →
      require_api_key h header ip ua endpoint now s =
        (.denied 401 "API key required" "Please provide API key in X-API-Key header", s)) ∧
    (∀ raw, header = some raw → raw ≠ "" → findKeyByHash s.keys (h raw) = none →
      require_api_key h header ip ua endpoint now s =
        (.denied 401 "Invalid API key" "The provided API key is not valid", s)) ∧
    (∀ raw k, header = some raw → raw ≠ "" → findKeyByHash s.keys (h raw) = some k →
      ApiKey.is_valid k now = false →
      require_api_key h header ip ua endpoint now s =
        (.denied 401 "Invalid API key" ("API key is " ++ k.status),
         { keys := s.keys,
           usages := s.usages ++ [⟨s.nextId, k.id, endpoint, now, "invalid_key", some ip, ua⟩],
           nextId := s.nextId + 1 })) ∧
    (∀ raw k, header = some raw → raw ≠ "" → findKeyByHash s.keys (h raw) = some k →
      ApiKey.is_valid k now = true →
      require_api_key h header ip ua endpoint now s =
        (.allowed { k with last_used := some now, usage_count := k.usage_count + 1 },
         { keys := replaceKey s.keys
             { k with last_used := some now, usage_count := k.usage_count + 1 },
           usages := s.usages ++ [⟨s.nextId, k.id, endpoint, now, "success", some ip, ua⟩],
           nextId := s.nextId + 1 }) ∧
      (k ∈ s.keys →
        { k with last_used := some now, usage_count := k.usage_count + 1 } ∈
          (require_api_key h header ip ua endpoint now s).2.keys)) := by
  refine ⟨?_, ?_, ?_, ?_⟩
  · rintro rfl; rfl
  · rintro raw rfl hraw hfind
    simp [require_api_key, hraw, hfind]
  · rintro raw k rfl hraw hfind hinvalid
    simp [require_api_key, hraw, hfind, hinvalid]
  · rintro raw k rfl hraw hfind hvalid
    have hlatest :
        latestUsageFor (s.usages ++ [⟨s.nextId, k.id, endpoint, now, "success", none, none⟩])
          k.id = some ⟨s.nextId, k.id, endpoint, now, "success", none, none⟩ :=
      latestUsageFor_append s.usages ⟨s.nextId, k.id, endpoint, now, "success", none, none⟩
        hfresh
    have hset :
        setIpUa (s.usages ++ [⟨s.nextId, k.id, endpoint, now, "success", none, none⟩])
          s.nextId ip ua =
          s.usages ++ [⟨s.nextId, k.id, endpoint, now, "success", some ip, ua⟩] :=
      setIpUa_append s.usages ⟨s.nextId, k.id, endpoint, now, "success", none, none⟩ ip ua
        hfresh
    have heq :
        require_api_key h (some raw) ip ua endpoint now s =
          (.allowed { k with last_used := some now, usage_count := k.usage_count + 1 },
           { keys := replaceKey s.keys
               { k with last_used := some now, usage_count := k.usage_count + 1 },
             usages := s.usages ++
               [⟨s.nextId, k.id, endpoint, now, "success", some ip, ua⟩],
             nextId := s.nextId + 1 }) := by
      simp [require_api_key, hraw, hfind, hvalid, hlatest, hset]
    refine ⟨heq, ?_⟩
    intro hk
    rw [heq]
    simp only [replaceKey]
    exact List.mem_map.mpr ⟨k, hk, by simp⟩

/-- Claim C2 witness: the middleware theorem applied to a concrete store and
request covering the valid-key case. -/
theorem C2_witness :
    (∀ u ∈ (Store.mk
        [⟨1, 1, "K", "K...", none, "active", 0, none, none, 3⟩] [] 5).usages,
      u.id < 5) ∧
    require_api_key (fun x => x) (some "K") "1.2.3.4" (some "UA") "api.test" 50
        (Store.mk [⟨1, 1, "K", "K...", none, "active", 0, none, none, 3⟩] [] 5) =
      (.allowed ⟨1, 1, "K", "K...", none, "active", 0, none, some 50, 4⟩,
       Store.mk [⟨1, 1, "K", "K...", none, "active", 0, none, some 50, 4⟩]
         [⟨5, 1, "api.test", 50, "success", some "1.2.3.4", some "UA"⟩] 6) := by
  constructor
  · intro u hu; cases hu
  · have := (C2_require_api_key (fun x => x) (some "K") "1.2.3.4" (some "UA") "api.test" 50
      (Store.mk [⟨1, 1, "K", "K...", none, "active", 0, none, none, 3⟩] [] 5)
      (by intro u hu; cases hu)).2.2.2 "K"
      ⟨1, 1, "K", "K...", none, "active", 0, none, none, 3⟩ rfl (by decide) (by decide)
      (by decide)
    rw [this.1]
    rfl

/-- Python's `str.strip()`: drop leading and trailing whitespace.  Defined
over the character list so concrete instances reduce in the kernel. -/
def pyStrip (s : String) : String :=
  String.mk (((s.data.dropWhile Char.isWhitespace).reverse.dropWhile
    Char.isWhitespace).reverse)

/-- Python's `str.lower()` (restricted to the ASCII range, which covers
every string these routes compare). -/
def pyLower (s : String) : String :=
  String.mk (s.data.map Char.toLower)

/-- Mirrors the `User` model of `src/models/__init__.py`: id, username,
email, password_hash, otp_verified, otp_code, otp_created_at, is_admin,
last_login.  (created_at is irrelevant to the claims and omitted from use.) -/
structure User where
  id : Nat
  username : String
  email : String
  password_hash : String
  otp_verified : Bool
  otp_code : Option String
  otp_created_at : Option Nat
  is_admin : Bool
  last_login : Option Nat
  deriving Repr, DecidableEq

/-- `User.set_otp` (src/models/__init__.py lines 36-39): store the code and
stamp `utcnow()`. -/
def User.set_otp (u : User) (code : String) (now : Nat) : User :=
  { u with otp_code := some code, otp_created_at := some now }

/-- `User.verify_otp` (src/models/__init__.py lines 41-51):
`if not self.otp_code or not self.otp_created_at: return False` — a missing
code, an empty-string code (both falsy in Python) or a missing timestamp
fail closed; then fail if more than 600 seconds have elapsed since issuance
(`time_diff.total_seconds() > 600`, strict); otherwise exact string
equality of stored and presented code. -/
def User.verify_otp (u : User) (now : Nat) (code : String) : Bool :=
  match u.otp_code, u.otp_created_at with
  | some stored, some created =>
      if stored == "" then false
      else if ((now : Int) - (created : Int)) > 600 then false
      else stored == code
  | _, _ => false

/-- The OTP branch of the `verify_otp` route (src/routes/auth.py lines
73-97), for an already-resolved user: empty code → 400; already verified →
400; `User.verify_otp` success → mark verified and clear the pending code
and timestamp; failure → 400. -/
def verify_otp_route (u : User) (codeInput : String) (now : Nat) : Except String User :=
  let otp_code := pyStrip codeInput
  if otp_code = "" then .error "User ID and OTP code are required"
  else if u.otp_verified then .error "Email already verified"
  else if u.verify_otp now otp_code then
    .ok { u with otp_verified := true, otp_code := none, otp_created_at := none }
  else .error "Invalid or expired OTP code"

/-- Claim C3: OTP verification (a) fails closed without a pending code or
issuance timestamp, (b) fails once strictly more than 600 seconds have
elapsed, (c) otherwise succeeds exactly on exact string equality with the
stored code, and (d) after a successful run of the verification flow the
pending code and timestamp are cleared, so every later `verify_otp` call on
that user — in particular a replay of the same code — returns false. -/
theorem C3_verify_otp (u : User) (now : Nat) (code : String) :
    ((u.otp_code = none ∨ u.otp_code = some "" ∨ u.otp_created_at = none) →
      u.verify_otp now code = false) ∧
    (∀ t, u.otp_created_at = some t → (now : Int) - t > 600 →
      u.verify_otp now code = false) ∧
    (∀ s t, u.otp_code = some s → s ≠ "" → u.otp_created_at = some t →
      (now : Int) - t ≤ 600 →
      (u.verify_otp now code = true ↔ code = s)) ∧
    (∀ u', verify_otp_route u code now = .ok u' →
      u'.otp_code = none ∧ u'.otp_created_at = none ∧
      ∀ now2 code2, u'.verify_otp now2 code2 = false) := by
  refine ⟨?_, ?_, ?_, ?_⟩
  · rintro (hc | hc | hc) <;> unfold User.verify_otp
    · simp [hc]
    · cases ht : u.otp_created_at <;> simp [hc]
    · cases hs : u.otp_code <;> simp [hc]
  · intro t ht hlate
    unfold User.verify_otp
    cases hs : u.otp_code with
    | none => rfl
    | some stored =>
        rw [ht]
        by_cases hse : stored == ""
        · simp [hse]
        · simp [hse, hlate]
  · intro s t hs hse ht hontime
    unfold User.verify_otp
    rw [hs, ht]
    have h1 : (s == "") = false := by
      simp [hse]
    have h2 : ¬ ((now : Int) - (t : Int) > 600) := by omega
    simp [h1, h2]
    constructor
    · intro h; exact h.symm
    · intro h; exact h.symm
  · intro u' hok
    unfold verify_otp_route at hok
    by_cases h1 : pyStrip code = ""
    · simp [h1] at hok
    · by_cases h2 : u.otp_verified
      · simp [h1, h2] at hok
      · by_cases h3 : u.verify_otp now (pyStrip code)
        · simp [h1, h2, h3] at hok
          subst hok
          exact ⟨rfl, rfl, fun _ _ => rfl⟩
        · simp [h1, h2, h3] at hok

/-- Claim C3 witness: a user with code "123456" issued at time 0, verified
at time 300 with the right and with the wrong code, an expired attempt at
time 601, and replay failure after the flow consumed the code. -/
theorem C3_witness :
    (User.verify_otp ⟨1, "a", "a@x", "ph", false, some "123456", some 0, false, none⟩
        300 "123456" = true) ∧
    (User.verify_otp ⟨1, "a", "a@x", "ph", false, some "123456", some 0, false, none⟩
        300 "999999" = false) ∧
    (User.verify_otp ⟨1, "a", "a@x", "ph", false, some "123456", some 0, false, none⟩
        601 "123456" = false) ∧
    (∀ u', verify_otp_route
        ⟨1, "a", "a@x", "ph", false, some "123456", some 0, false, none⟩ "123456" 300 =
          .ok u' →
      ∀ now2 code2, u'.verify_otp now2 code2 = false) := by
  refine ⟨?_, ?_, ?_, ?_⟩
  · exact ((C3_verify_otp ⟨1, "a", "a@x", "ph", false, some "123456", some 0, false, none⟩
      300 "123456").2.2.1 "123456" 0 rfl (by decide) rfl (by decide)).mpr rfl
  · have := (C3_verify_otp ⟨1, "a", "a@x", "ph", false, some "123456", some 0, false, none⟩
      300 "999999").2.2.1 "123456" 0 rfl (by decide) rfl (by decide)
    by_cases hv : User.verify_otp
        ⟨1, "a", "a@x", "ph", false, some "123456", some 0, false, none⟩ 300 "999999"
    · exact absurd (this.mp hv) (by decide)
    · simpa using hv
  · exact (C3_verify_otp ⟨1, "a", "a@x", "ph", false, some "123456", some 0, false, none⟩
      601 "123456").2.1 0 rfl (by decide)
  · intro u' hok
    exact ((C3_verify_otp ⟨1, "a", "a@x", "ph", false, some "123456", some 0, false, none⟩
      300 "123456").2.2.2 u' hok).2.2

/-- Mirrors the `LoginHistory` model of `src/models/__init__.py`:
user_id, timestamp, ip_address, user_agent, success. -/
structure LoginRow where
  user_id : Nat
  timestamp : Nat
  ip_address : String
  user_agent : Option String
  success : Bool
  deriving Repr, DecidableEq

/-- Outcome of the login route, one constructor per response of
src/routes/auth.py lines 126-188. -/
inductive LoginResult where
  | badRequest (e : String)
  | unverified (e : String)
  | loggedIn (uid : Nat)
  | invalid (e : String)
  deriving Repr, DecidableEq

/-- `login` (src/routes/auth.py lines 126-188).  `checkpw` models bcrypt's
`check_password`.  Returns the response, the updated users table, and the
list of LoginHistory rows appended by this attempt.  Control flow of the
source: empty username or password → 400, no row; find first user whose
username or email equals the identifier; matched and password correct but
not OTP-verified → 403, no row; matched, correct, verified → one success
row, last_login updated, 200; matched but wrong password → one failure row,
401; unmatched → no row, 401. -/
def login (checkpw : String → String → Bool) (users : List User)
    (usernameInput password ip : String) (ua : Option String) (now : Nat) :
    LoginResult × List User × List LoginRow :=
  let username := pyStrip usernameInput
  if username = "" ∨ password = "" then
    (.badRequest "Username and password are required", users, [])
  else
    match users.find? (fun u => u.username == username || u.email == username) with
    | some u =>
        if checkpw password u.password_hash then
          if u.otp_verified = false then
            (.unverified "Please verify your email first", users, [])
          else
            (.loggedIn u.id,
             users.map (fun x => if x.id == u.id then { x with last_login := some now } else x),
             [⟨u.id, now, ip, ua, true⟩])
        else
          (.invalid "Invalid username or password", users, [⟨u.id, now, ip, ua, false⟩])
    | none => (.invalid "Invalid username or password", users, [])

/-- Claim C7, counterexample: a login attempt that matches a real user and
presents the correct password, but against an account whose email is not
yet OTP-verified, is rejected with the verification error and appends NO
LoginHistory row — the claim demands exactly one row for every matched
attempt. -/
theorem C7_counterexample :
    (([(⟨1, "alice", "alice@x.com", "ph", false, none, none, false, none⟩ : User)].find?
        (fun u => u.username == "alice" || u.email == "alice")).isSome = true) ∧
    login (fun _ _ => true)
        [⟨1, "alice", "alice@x.com", "ph", false, none, none, false, none⟩]
        "alice" "pw" "1.2.3.4" none 0 =
      (.unverified "Please verify your email first",
       [⟨1, "alice", "alice@x.com", "ph", false, none, none, false, none⟩], []) := by
  constructor
  · decide
  · rfl

/-- Claim C7 (amended): on a login attempt with nonempty identifier and
password, if the identifier matches an existing user's username or email
then exactly one LoginHistory row is appended with the success flag set by
the outcome — except that a matched attempt with a correct password against
a not-yet-verified account is rejected with a verification error and
appends no row; unmatched identifiers append no row. -/
theorem C7_login_history (checkpw : String → String → Bool) (users : List User)
    (usernameInput password ip : String) (ua : Option String) (now : Nat)
    (hneCred : ¬ (pyStrip usernameInput = "" ∨ password = "")) :
    (∀ u, users.find?
        (fun x => x.username == pyStrip usernameInput || x.email == pyStrip usernameInput) = some u →
      (checkpw password u.password_hash = true → u.otp_verified = true →
        (login checkpw users usernameInput password ip ua now).2.2 =
          [⟨u.id, now, ip, ua, true⟩]) ∧
      (checkpw password u.password_hash = false →
        (login checkpw users usernameInput password ip ua now).2.2 =
          [⟨u.id, now, ip, ua, false⟩]) ∧
      (checkpw password u.password_hash = true → u.otp_verified = false →
        (login checkpw users usernameInput password ip ua now).2.2 = [] ∧
        (login checkpw users usernameInput password ip ua now).1 =
          .unverified "Please verify your email first")) ∧
    (users.find?
        (fun x => x.username == pyStrip usernameInput || x.email == pyStrip usernameInput) = none →
      (login checkpw users usernameInput password ip ua now).2.2 = []) := by
  constructor
  · intro u hfind
    refine ⟨?_, ?_, ?_⟩
    · intro hpw hver
      simp [login, hneCred, hfind, hpw, hver]
    · intro hpw
      simp [login, hneCred, hfind, hpw]
    · intro hpw hver
      simp [login, hneCred, hfind, hpw, hver]
  · intro hfind
    simp [login, hneCred, hfind]

/-- Claim C7 witness: the amended theorem applied to a concrete store; a
wrong-password attempt against a verified account appends one failure row. -/
theorem C7_witness :
    ¬ (pyStrip "alice" = "" ∨ ("wrong" : String) = "") ∧
    (login (fun _ _ => false)
        [⟨1, "alice", "alice@x.com", "ph", true, none, none, false, none⟩]
        "alice" "wrong" "1.2.3.4" none 9).2.2 =
      [⟨1, 9, "1.2.3.4", none, false⟩] := by
  refine ⟨by decide, ?_⟩
  exact ((C7_login_history (fun _ _ => false)
      [⟨1, "alice", "alice@x.com", "ph", true, none, none, false, none⟩]
      "alice" "wrong" "1.2.3.4" none 9 (by decide)).1
      ⟨1, "alice", "alice@x.com", "ph", true, none, none, false, none⟩ (by decide)).2.1 rfl

/-- The wire-relevant parts of the `forgot_password` response
(src/routes/auth.py lines 268-296): HTTP code, the human-readable string of
the body ("error" key for the 400 case, "message" key otherwise), and the
optional user_id field. -/
structure ForgotResp where
  code : Nat
  message : String
  user_id : Option Nat
  deriving Repr, DecidableEq

/-- `forgot_password` (src/routes/auth.py lines 268-296): normalize the
email (strip + lower); empty → 400; no user with that email → 200 with the
generic message and no user_id; user found → issue a reset OTP and return
200 with the SAME generic message plus the user's id. -/
def forgot_password (users : List User) (emailInput otp : String) (now : Nat) :
    ForgotResp × List User :=
  let email := pyLower (pyStrip emailInput)
  if email = "" then (⟨400, "Email is required", none⟩, users)
  else
    match users.find? (fun u => u.email == email) with
    | none => (⟨200, "If the email exists, a reset code has been sent", none⟩, users)
    | some u =>
        (⟨200, "If the email exists, a reset code has been sent", some u.id⟩,
         users.map (fun x => if x.id == u.id then x.set_otp otp now else x))

/-- Claim C10: the forgot_password response carries a user_id field exactly
when a user with the submitted (normalized, nonempty) email exists, the
message string is identical in both cases, and hence two stores that differ
only in whether the email is registered produce distinguishable responses
to the same request. -/
theorem C10_forgot_password (users usersA usersB : List User)
    (emailInput otp : String) (now : Nat)
    (hne : pyLower (pyStrip emailInput) ≠ "") :
    ((forgot_password users emailInput otp now).1.user_id.isSome ↔
      ∃ u ∈ users, u.email = pyLower (pyStrip emailInput)) ∧
    (forgot_password users emailInput otp now).1.message =
      "If the email exists, a reset code has been sent" ∧
    (∀ uB, usersA.find? (fun u => u.email == pyLower (pyStrip emailInput)) = none →
      usersB.find? (fun u => u.email == pyLower (pyStrip emailInput)) = some uB →
      (forgot_password usersA emailInput otp now).1 ≠
        (forgot_password usersB emailInput otp now).1) := by
  refine ⟨?_, ?_, ?_⟩
  · cases hfind : users.find? (fun u => u.email == pyLower (pyStrip emailInput)) with
    | none =>
        simp [forgot_password, hne, hfind]
        intro u hu
        have := List.find?_eq_none.mp hfind u hu
        simpa using this
    | some u =>
        simp [forgot_password, hne, hfind]
        refine ⟨u, List.mem_of_find?_eq_some hfind, ?_⟩
        have := List.find?_some hfind
        simpa using this
  · cases hfind : users.find? (fun u => u.email == pyLower (pyStrip emailInput)) with
    | none => simp [forgot_password, hne, hfind]
    | some u => simp [forgot_password, hne, hfind]
  · intro uB hA hB
    simp [forgot_password, hne, hA, hB]

/-- Claim C10 witness: with email "bob@x.com", an empty store answers
without user_id, a store holding bob answers with user_id 7, messages
equal, responses distinguishable. -/
theorem C10_witness :
    pyLower (pyStrip "bob@x.com") ≠ "" ∧
    (forgot_password [] "bob@x.com" "111111" 0).1 ≠
      (forgot_password [⟨7, "bob", "bob@x.com", "ph", true, none, none, false, none⟩]
        "bob@x.com" "111111" 0).1 := by
  refine ⟨by decide, ?_⟩
  exact (C10_forgot_password [] []
      [⟨7, "bob", "bob@x.com", "ph", true, none, none, false, none⟩]
      "bob@x.com" "111111" 0 (by decide)).2.2
      ⟨7, "bob", "bob@x.com", "ph", true, none, none, false, none⟩ (by decide) (by decide)

/-- Python slicing `raw_key[:16]` at the character level. -/
def pyTake (s : String) (n : Nat) : String :=
  String.mk (s.data.take n)

/-- Decimal digit run to a number; `none` when empty or non-digit. -/
def digitsToNat? (l : List Char) : Option Nat :=
  if l.isEmpty then none
  else if l.all Char.isDigit then
    some (l.foldl (fun a c => a * 10 + (c.toNat - 48)) 0)
  else none

/-- Python's `int()` on an already-stripped string: an optional sign
followed by one or more decimal digits, `none` (ValueError) otherwise.
(Underscore digit grouping is not modelled; the routes only receive plain
numerals.) -/
def pyInt? (s : String) : Option Int :=
  match s.data with
  | '+' :: rest => (digitsToNat? rest).map (fun n => (n : Int))
  | '-' :: rest => (digitsToNat? rest).map (fun n => -(n : Int))
  | l => (digitsToNat? l).map (fun n => (n : Int))

/-- The expiry-validation block that appears verbatim in both `generate_key`
(src/routes/api_keys.py lines 21-32) and `update_key` (lines 203-216): on a
nonempty stripped field, `int()` failure → "Invalid expiration days",
`days <= 0` → "Expiration days must be positive", `days > 365` → "Maximum
expiration is 365 days", else expiry = now + days (86400 s per day); an
empty field yields no expiry value. -/
def validateExpiry (e : String) (now : Nat) : Except String (Option Nat) :=
  if e ≠ "" then
    match pyInt? e with
    | none => .error "Invalid expiration days"
    | some d =>
        if d ≤ 0 then .error "Expiration days must be positive"
        else if d > 365 then .error "Maximum expiration is 365 days"
        else .ok (some (now + d.toNat * 86400))
  else .ok none

/-- `ApiKey.verify_key` (src/models/__init__.py lines 87-90): compare the
stored hash with the digest of the presented raw key. -/
def ApiKey.verify_key (h : String → String) (k : ApiKey) (raw : String) : Bool :=
  k.key_hash == h raw

/-- `generate_key` (src/routes/api_keys.py lines 13-62), POST branch, for an
authenticated verified owner `uid`.  `keyCount` is
`ApiKey.query.filter_by(user_id=...).count()` — every status counts;
`newRaw` is the 128-char secret drawn by `generate_secure_api_key`; `newId`
the autoincrement id.  Source order: validate the expiry field FIRST, then
the ≥ 10 quota, then store hash+preview (`set_key_hash`) with default
status active and return the raw key once. -/
def generate_key (h : String → String) (nameInput expiresInput : String)
    (keyCount now : Nat) (newRaw : String) (newId uid : Nat) :
    Except String (ApiKey × String) :=
  let key_name := pyStrip nameInput
  let e := pyStrip expiresInput
  match validateExpiry e now with
  | .error msg => .error msg
  | .ok expires_at =>
      if keyCount ≥ 10 then .error "Maximum number of API keys reached (10)"
      else
        .ok ({ id := newId, user_id := uid, key_hash := h newRaw,
               key_preview := pyTake newRaw 16 ++ "...",
               name := some (if key_name ≠ "" then key_name
                 else "API Key " ++ pyStrNat (keyCount + 1)),
               status := "active", created_at := now, expires_at := expires_at,
               last_used := none, usage_count := 0 }, newRaw)

/-- `update_key` (src/routes/api_keys.py lines 185-220) on the resolved
owned key: a nonempty stripped name replaces the name; a nonempty expiry
field is validated (same block as creation) and resets the expiry from now;
the `elif expires_in_days == ''` branch CLEARS the expiry whenever the
field is empty or absent (`data.get(..., '')`). -/
def update_key (k : ApiKey) (nameInput expiresInput : String) (now : Nat) :
    Except String ApiKey :=
  let new_name := pyStrip nameInput
  let e := pyStrip expiresInput
  let k1 := if new_name ≠ "" then { k with name := some new_name } else k
  match validateExpiry e now with
  | .error msg => .error msg
  | .ok expires_at => .ok { k1 with expires_at := expires_at }

/-- `update_key_status` (src/routes/api_keys.py lines 83-103) on the
resolved owned key: strip+lower the requested status, require it to be one
of active/inactive/revoked, and assign it unconditionally — there is no
check of the key's current status. -/
def update_key_status (k : ApiKey) (statusInput : String) : Except String ApiKey :=
  let new_status := pyLower (pyStrip statusInput)
  if new_status = "active" ∨ new_status = "inactive" ∨ new_status = "revoked" then
    .ok { k with status := new_status }
  else .error "Invalid status. Must be active, inactive, or revoked"

/-- `admin_update_key_status` (src/routes/admin.py lines 241-260): identical
validation and unconditional assignment, admin-scoped. -/
def admin_update_key_status (k : ApiKey) (statusInput : String) : Except String ApiKey :=
  let new_status := pyLower (pyStrip statusInput)
  if new_status = "active" ∨ new_status = "inactive" ∨ new_status = "revoked" then
    .ok { k with status := new_status }
  else .error "Invalid status"

/-- `regenerate_key` (src/routes/api_keys.py lines 154-183) on the resolved
owned key: refuse a revoked key; otherwise replace hash and preview with
those of the fresh secret (`set_key_hash`), force status active, reset
usage_count to 0 and last_used to null, and return the raw key once.
`regeneratedKey` is the mutated record. -/
def regeneratedKey (h : String → String) (k : ApiKey) (newRaw : String) : ApiKey :=
  { k with key_hash := h newRaw, key_preview := pyTake newRaw 16 ++ "...",
           status := "active", usage_count := 0, last_used := none }

def regenerate_key (h : String → String) (k : ApiKey) (newRaw : String) :
    Except String (ApiKey × String) :=
  if k.status = "revoked" then .error "Cannot regenerate revoked key"
  else .ok (regeneratedKey h k newRaw, newRaw)

/-- Claim C4: regeneration fails on a revoked key; on any non-revoked key it
replaces hash and preview with those of the new secret, forces status
active, resets usage_count to 0 and last_used to null, and returns the new
raw key — after which the new secret verifies against the stored hash and
the old one (whose digest differs) does not. -/
theorem C4_regenerate_key (h : String → String) (k : ApiKey) (newRaw oldRaw : String) :
    (k.status = "revoked" →
      regenerate_key h k newRaw = .error "Cannot regenerate revoked key") ∧
    (k.status ≠ "revoked" →
      regenerate_key h k newRaw = .ok (regeneratedKey h k newRaw, newRaw) ∧
      (regeneratedKey h k newRaw).key_hash = h newRaw ∧
      (regeneratedKey h k newRaw).key_preview = pyTake newRaw 16 ++ "..." ∧
      (regeneratedKey h k newRaw).status = "active" ∧
      (regeneratedKey h k newRaw).usage_count = 0 ∧
      (regeneratedKey h k newRaw).last_used = none ∧
      ApiKey.verify_key h (regeneratedKey h k newRaw) newRaw = true ∧
      (h oldRaw ≠ h newRaw →
        ApiKey.verify_key h (regeneratedKey h k newRaw) oldRaw = false)) := by
  constructor
  · intro hrev
    simp [regenerate_key, hrev]
  · intro hrev
    refine ⟨?_, rfl, rfl, rfl, rfl, rfl, ?_, ?_⟩
    · simp [regenerate_key, hrev]
    · simp [ApiKey.verify_key, regeneratedKey]
    · intro hne
      simp [ApiKey.verify_key, regeneratedKey]
      exact fun hcontra => hne hcontra.symm

/-- Claim C4 witness: regenerating a concrete active key with a fresh
secret, checked against the old secret "OLD" and the new secret "NEW" under
an injective stand-in digest. -/
theorem C4_witness :
    (("active" : String) ≠ "revoked") ∧
    regenerate_key (fun s => s ++ "#")
        ⟨1, 1, "OLD#", "OLD...", none, "active", 0, none, some 5, 9⟩ "NEW" =
      .ok (⟨1, 1, "NEW#", "NEW...", none, "active", 0, none, none, 0⟩, "NEW") ∧
    ApiKey.verify_key (fun s => s ++ "#")
      ⟨1, 1, "NEW#", "NEW...", none, "active", 0, none, none, 0⟩ "OLD" = false := by
  refine ⟨by decide, ?_, ?_⟩
  · have := (C4_regenerate_key (fun s => s ++ "#")
        ⟨1, 1, "OLD#", "OLD...", none, "active", 0, none, some 5, 9⟩ "NEW" "OLD").2
        (by decide)
    rw [this.1]
    rfl
  · have := (C4_regenerate_key (fun s => s ++ "#")
        ⟨1, 1, "OLD#", "OLD...", none, "active", 0, none, some 5, 9⟩ "NEW" "OLD").2
        (by decide)
    have hv := this.2.2.2.2.2.2.2 (by decide)
    exact hv

/-- Claim C5, counterexample: with the owner already at the 10-key quota AND
an invalid expiry of 0 days, creation fails with the invalid-expiry error,
not the quota error — expiry validation runs before the quota check, so
"fails with a quota error whenever the owner holds ≥ 10 keys" is false. -/
theorem C5_counterexample :
    10 ≥ 10 ∧
    generate_key (fun s => s) "" "0" 10 0 "RAWKEY" 1 1 =
      .error "Expiration days must be positive" ∧
    ("Expiration days must be positive" : String) ≠
      "Maximum number of API keys reached (10)" := by
  exact ⟨by decide, rfl, by decide⟩

/-- Claim C5 (amended): creation validates the expiry field first — a
supplied `expires_in_days` that is non-numeric, ≤ 0 or > 365 fails with the
corresponding invalid-expiry error even when the quota is also exceeded;
when the expiry field is empty or valid, an owner holding ≥ 10 keys (every
status counted) fails with the quota error; otherwise the new key stores
the digest and preview of the fresh raw secret with default status active
and the raw key is returned alongside exactly once. -/
theorem C5_generate_key (h : String → String) (nameInput expiresInput : String)
    (keyCount now : Nat) (newRaw : String) (newId uid : Nat) :
    (pyStrip expiresInput ≠ "" → pyInt? (pyStrip expiresInput) = none →
      generate_key h nameInput expiresInput keyCount now newRaw newId uid =
        .error "Invalid expiration days") ∧
    (∀ d, pyStrip expiresInput ≠ "" → pyInt? (pyStrip expiresInput) = some d → d ≤ 0 →
      generate_key h nameInput expiresInput keyCount now newRaw newId uid =
        .error "Expiration days must be positive") ∧
    (∀ d, pyStrip expiresInput ≠ "" → pyInt? (pyStrip expiresInput) = some d → 0 < d →
      d > 365 →
      generate_key h nameInput expiresInput keyCount now newRaw newId uid =
        .error "Maximum expiration is 365 days") ∧
    ((pyStrip expiresInput = "" ∨
        ∃ d, pyInt? (pyStrip expiresInput) = some d ∧ 1 ≤ d ∧ d ≤ 365) →
      keyCount ≥ 10 →
      generate_key h nameInput expiresInput keyCount now newRaw newId uid =
        .error "Maximum number of API keys reached (10)") ∧
    (pyStrip expiresInput = "" → keyCount < 10 →
      generate_key h nameInput expiresInput keyCount now newRaw newId uid =
        .ok ({ id := newId, user_id := uid, key_hash := h newRaw,
               key_preview := pyTake newRaw 16 ++ "...",
               name := some (if pyStrip nameInput ≠ "" then pyStrip nameInput
                 else "API Key " ++ pyStrNat (keyCount + 1)),
               status := "active", created_at := now, expires_at := none,
               last_used := none, usage_count := 0 }, newRaw)) ∧
    (∀ d, pyInt? (pyStrip expiresInput) = some d → pyStrip expiresInput ≠ "" →
      1 ≤ d → d ≤ 365 → keyCount < 10 →
      generate_key h nameInput expiresInput keyCount now newRaw newId uid =
        .ok ({ id := newId, user_id := uid, key_hash := h newRaw,
               key_preview := pyTake newRaw 16 ++ "...",
               name := some (if pyStrip nameInput ≠ "" then pyStrip nameInput
                 else "API Key " ++ pyStrNat (keyCount + 1)),
               status := "active", created_at := now,
               expires_at := some (now + d.toNat * 86400),
               last_used := none, usage_count := 0 }, newRaw)) := by
  refine ⟨?_, ?_, ?_, ?_, ?_, ?_⟩
  · intro hne hparse
    simp [generate_key, validateExpiry, hne, hparse]
  · intro d hne hparse hd
    simp [generate_key, validateExpiry, hne, hparse, hd]
  · intro d hne hparse hd0 hd365
    have hd : ¬ d ≤ 0 := by omega
    simp [generate_key, validateExpiry, hne, hparse, hd, hd365]
  · rintro (he | ⟨d, hparse, hd1, hd365⟩) hq
    · simp [generate_key, validateExpiry, he, hq]
    · by_cases he : pyStrip expiresInput = ""
      · simp [generate_key, validateExpiry, he, hq]
      · have hd : ¬ d ≤ 0 := by omega
        have hd' : ¬ d > 365 := by omega
        simp [generate_key, validateExpiry, he, hparse, hd, hd', hq]
  · intro he hq
    have hq' : ¬ keyCount ≥ 10 := by omega
    simp [generate_key, validateExpiry, he, hq']
  · intro d hparse hne hd1 hd365 hq
    have hd : ¬ d ≤ 0 := by omega
    have hd' : ¬ d > 365 := by omega
    have hq' : ¬ keyCount ≥ 10 := by omega
    simp [generate_key, validateExpiry, hne, hparse, hd, hd', hq']

/-- Claim C5 witness: a successful creation with 3 existing keys and a
30-day expiry under a stand-in digest. -/
theorem C5_witness :
    pyInt? (pyStrip "30") = some 30 ∧ pyStrip "30" ≠ "" ∧ (1 : Int) ≤ 30 ∧
    (30 : Int) ≤ 365 ∧ 3 < 10 ∧
    generate_key (fun s => s ++ "#") "mykey" "30" 3 1000 "RAWKEY" 4 2 =
      .ok (⟨4, 2, "RAWKEY#", "RAWKEY...", some "mykey", "active", 1000,
            some (1000 + 30 * 86400), none, 0⟩, "RAWKEY") := by
  refine ⟨by decide, by decide, by decide, by decide, by decide, ?_⟩
  have := (C5_generate_key (fun s => s ++ "#") "mykey" "30" 3 1000 "RAWKEY" 4 2).2.2.2.2.2
    30 (by decide) (by decide) (by decide) (by decide) (by decide)
  rw [this]
  rfl

/-- Claim C6, counterexample: updating a key while leaving the expiry field
empty (or absent — `data.get` defaults to the empty string) CLEARS
`expires_at` to null instead of leaving it unchanged: the `elif
expires_in_days == ''` branch always fires in that case. -/
theorem C6_counterexample :
    update_key ⟨1, 1, "H", "P", none, "active", 0, some 999, none, 7⟩ "" "" 0 =
      .ok ⟨1, 1, "H", "P", none, "active", 0, none, none, 7⟩ ∧
    (⟨1, 1, "H", "P", none, "active", 0, some 999, none, 7⟩ : ApiKey).expires_at ≠
      (⟨1, 1, "H", "P", none, "active", 0, none, none, 7⟩ : ApiKey).expires_at := by
  exact ⟨rfl, by decide⟩

/-- Claim C6 (amended): on an owner Update, an empty or absent expiry field
IS the clear signal — it sets `expires_at` to null; a numeric value is
accepted only in 1-365 days and resets `expires_at` to now + that many
days; out-of-range or non-numeric values fail and leave the key untouched;
and whatever the outcome, the key's hash, status, usage counter, last_used
and id are never changed by Update. -/
theorem C6_update_key (k : ApiKey) (nameInput expiresInput : String) (now : Nat) :
    (pyStrip expiresInput = "" →
      ∃ k', update_key k nameInput expiresInput now = .ok k' ∧
        k'.expires_at = none) ∧
    (∀ d, pyStrip expiresInput ≠ "" → pyInt? (pyStrip expiresInput) = some d →
      1 ≤ d → d ≤ 365 →
      ∃ k', update_key k nameInput expiresInput now = .ok k' ∧
        k'.expires_at = some (now + d.toNat * 86400)) ∧
    (pyStrip expiresInput ≠ "" →
      (pyInt? (pyStrip expiresInput) = none ∨
        ∃ d, pyInt? (pyStrip expiresInput) = some d ∧ (d ≤ 0 ∨ d > 365)) →
      ∃ msg, update_key k nameInput expiresInput now = .error msg) ∧
    (∀ k', update_key k nameInput expiresInput now = .ok k' →
      k'.key_hash = k.key_hash ∧ k'.status = k.status ∧
      k'.usage_count = k.usage_count ∧ k'.last_used = k.last_used ∧ k'.id = k.id) := by
  refine ⟨?_, ?_, ?_, ?_⟩
  · intro he
    by_cases hn : pyStrip nameInput ≠ ""
    · exact ⟨{ k with name := some (pyStrip nameInput), expires_at := none },
        by simp [update_key, validateExpiry, he, hn], rfl⟩
    · exact ⟨{ k with expires_at := none },
        by simp [update_key, validateExpiry, he, hn], rfl⟩
  · intro d hne hparse hd1 hd365
    have hd : ¬ d ≤ 0 := by omega
    have hd' : ¬ d > 365 := by omega
    by_cases hn : pyStrip nameInput ≠ ""
    · exact ⟨{ k with name := some (pyStrip nameInput),
                      expires_at := some (now + d.toNat * 86400) },
        by simp [update_key, validateExpiry, hne, hparse, hd, hd', hn], rfl⟩
    · exact ⟨{ k with expires_at := some (now + d.toNat * 86400) },
        by simp [update_key, validateExpiry, hne, hparse, hd, hd', hn], rfl⟩
  · intro hne herr
    rcases herr with hnone | ⟨d, hparse, hd⟩
    · exact ⟨"Invalid expiration days",
        by simp [update_key, validateExpiry, hne, hnone]⟩
    · rcases hd with hd | hd
      · exact ⟨"Expiration days must be positive",
          by simp [update_key, validateExpiry, hne, hparse, hd]⟩
      · have h0 : ¬ d ≤ 0 := by omega
        exact ⟨"Maximum expiration is 365 days",
          by simp [update_key, validateExpiry, hne, hparse, h0, hd]⟩
  · intro k' hok
    unfold update_key at hok
    cases hval : validateExpiry (pyStrip expiresInput) now with
    | error msg =>
        simp [hval] at hok
    | ok expiresVal =>
        by_cases hn : pyStrip nameInput ≠ "" <;>
          · simp [hval, hn] at hok
            subst hok
            exact ⟨rfl, rfl, rfl, rfl, rfl⟩

/-- Claim C6 witness: setting a 10-day expiry on a concrete key changes only
`expires_at`, and the empty-field clear on the same key yields null. -/
theorem C6_witness :
    pyStrip "" = "" ∧ pyInt? (pyStrip "10") = some 10 ∧
    (∃ k', update_key ⟨1, 1, "H", "P", none, "inactive", 0, some 5, some 2, 7⟩ "" "10" 100 =
      .ok k' ∧ k'.expires_at = some (100 + 10 * 86400)) ∧
    (∃ k', update_key ⟨1, 1, "H", "P", none, "inactive", 0, some 5, some 2, 7⟩ "" "" 100 =
      .ok k' ∧ k'.expires_at = none) := by
  refine ⟨rfl, by decide, ?_, ?_⟩
  · exact (C6_update_key ⟨1, 1, "H", "P", none, "inactive", 0, some 5, some 2, 7⟩
      "" "10" 100).2.1 10 (by decide) (by decide) (by decide) (by decide)
  · exact (C6_update_key ⟨1, 1, "H", "P", none, "inactive", 0, some 5, some 2, 7⟩
      "" "" 100).1 rfl

/-- Claim C9: the owner-facing status endpoint (like the admin one) accepts
any target in {active, inactive, revoked} with no check of the current
status: a revoked key can be flipped back to active through the owner
endpoint, after which `is_valid` can return true again (e.g. with no
expiry) and regeneration no longer rejects the key. -/
theorem C9_unrevoke (h : String → String) (k : ApiKey) (newRaw : String) (now : Nat) :
    (∀ sInput, (pyLower (pyStrip sInput) = "active" ∨
        pyLower (pyStrip sInput) = "inactive" ∨ pyLower (pyStrip sInput) = "revoked") →
      update_key_status k sInput = .ok { k with status := pyLower (pyStrip sInput) }) ∧
    (update_key_status k "active" = .ok { k with status := "active" }) ∧
    (admin_update_key_status k "active" = .ok { k with status := "active" }) ∧
    (k.expires_at = none →
      ApiKey.is_valid { k with status := "active" } now = true) ∧
    (regenerate_key h { k with status := "active" } newRaw =
      .ok (regeneratedKey h { k with status := "active" } newRaw, newRaw)) := by
  refine ⟨?_, ?_, ?_, ?_, ?_⟩
  · intro sInput hmem
    simp [update_key_status, hmem]
  · have hs : pyLower (pyStrip "active") = "active" := rfl
    simp [update_key_status, hs]
  · have hs : pyLower (pyStrip "active") = "active" := rfl
    simp [admin_update_key_status, hs]
  · intro hx
    simp [ApiKey.is_valid, hx]
  · simp [regenerate_key]

/-- Claim C9 witness: a concrete revoked key is set back to active by the
owner endpoint, is then valid, and regenerates successfully. -/
theorem C9_witness :
    update_key_status ⟨1, 1, "H", "P", none, "revoked", 0, none, none, 4⟩ "active" =
      .ok ⟨1, 1, "H", "P", none, "active", 0, none, none, 4⟩ ∧
    ApiKey.is_valid ⟨1, 1, "H", "P", none, "active", 0, none, none, 4⟩ 999 = true ∧
    regenerate_key (fun s => s ++ "#")
        ⟨1, 1, "H", "P", none, "active", 0, none, none, 4⟩ "NEW" =
      .ok (⟨1, 1, "NEW#", "NEW...", none, "active", 0, none, none, 0⟩, "NEW") := by
  have hthm := C9_unrevoke (fun s => s ++ "#")
    ⟨1, 1, "H", "P", none, "revoked", 0, none, none, 4⟩ "NEW" 999
  refine ⟨hthm.2.1, hthm.2.2.2.1 rfl, ?_⟩
  rw [hthm.2.2.2.2]
  rfl

end ApiManager
